import Mathlib

/-
Verification development for the cow_sdk_tel_bot repository.

The development shallowly embeds the parts of the TypeScript source that the
checked properties are about:

* wallet derivation (src/services/blockchain/bitcoin.service.ts, both the
  BitcoinService and the EthereumService that share that file),
* the best-execution router (src/handlers/callbacks/swap.callback.ts,
  executeBestDEXSwap),
* allowance management (CowSwapService.checkAndApproveToken and
  UniswapService.ensureTokenAllowance),
* Uniswap pool selection (UniswapService.findWorkingPool),
* the CoW order monitor (CowSwapService.monitorOrderExecution),
* configuration loading (src/config/index.ts),
* the Garden coordinator event handlers (GardenService.setupEventListeners),
* the quote pipelines (CowSwapService.getQuote, UniswapService.getQuote).

External collaborators (chain reads, crypto primitives, venue backends) enter
the embedding as explicit parameters; machine integers are Nat with explicit
bounds where overflow matters; code that throws is modelled with Option or
Except.
-/

/-! ### Wallet derivation -/

/-- Reads a byte list as a big-endian natural number.  Used to embed
JavaScript code that parses a prefix of a hex digest with parseInt. -/
def bytesToNat (bs : List Nat) : Nat :=
  bs.foldl (fun a b => a * 256 + b) 0

/-- One segment of a BIP32 derivation path: the child index together with the
hardened flag that the source writes as a trailing tick in the path string. -/
structure PathSeg where
  idx : Nat
  hardened : Bool
deriving DecidableEq

/-- Every HD seed in the source is produced as
bip39.mnemonicToSeedSync(mnemonic) followed by HDKey.fromMasterSeed; this
records which mnemonic string the seed came from. -/
inductive SeedSrc where
  | fromMnemonic (mnemonic : String)
deriving DecidableEq

/-- External cryptographic primitives used by the wallet services.  They are
deterministic library functions (crypto.createHmac, bip39, hdkey, ethers,
catalogfi); the embedding abstracts them as an explicit parameter record.
hmacSHA256 returns the 32-byte digest; derivePriv returns the child private
key bytes, none when hdkey yields a null privateKey. -/
structure Crypto where
  hmacSHA256 : String → String → List Nat
  entropyToMnemonic : List Nat → String
  derivePriv : SeedSrc → List PathSeg → Option (List Nat)
  ethAddressOf : List Nat → String
  btcAddressOf : List Nat → String
  btcPublicKeyOf : List Nat → String

/-- Wallet record as returned by getUserWallet: address, raw private key
bytes, the mnemonic the service reports, the derivation path used, and the
mnemonic whose seed the path was applied to. -/
structure WalletModel where
  address : String
  privateKey : List Nat
  mnemonic : String
  path : List PathSeg
  seedSrc : SeedSrc
deriving DecidableEq

namespace EthereumService

/-- getUserSeed: the HMAC-SHA256 digest of the telegram id keyed with
CONFIG.SERVER_SECRET (the source keeps it as a hex string; the embedding
keeps the digest bytes). -/
def getUserSeed (c : Crypto) (serverSecret telegramId : String) : List Nat :=
  c.hmacSHA256 serverSecret telegramId

/-- userPart: parseInt(userSeed.slice(0, 8), 16) % 2147483648.  The first
8 hex characters of the digest are exactly its first 4 bytes. -/
def userPart (c : Crypto) (serverSecret telegramId : String) : Nat :=
  bytesToNat ((getUserSeed c serverSecret telegramId).take 4) % 2147483648

/-- The path string m/44h/60h/(userPart)h/0/(walletIndex) built in
EthereumService.getUserWallet. -/
def ethPath (userPart walletIndex : Nat) : List PathSeg :=
  [⟨44, true⟩, ⟨60, true⟩, ⟨userPart, true⟩, ⟨0, false⟩, ⟨walletIndex, false⟩]

/-- EthereumService.getUserWallet: derive from the seed of
CONFIG.MASTER_MNEMONIC along ethPath; none models the throw on a null
derived private key.  The reported mnemonic is generated from the first
16 bytes of the derived private key (generateMnemonicFromPrivateKey). -/
def getUserWallet (c : Crypto) (masterMnemonic serverSecret telegramId : String)
    (walletIndex : Nat) : Option WalletModel :=
  let src := SeedSrc.fromMnemonic masterMnemonic
  let path := ethPath (userPart c serverSecret telegramId) walletIndex
  match c.derivePriv src path with
  | none => none
  | some pk =>
      some { address := c.ethAddressOf pk
             privateKey := pk
             mnemonic := c.entropyToMnemonic (pk.take 16)
             path := path
             seedSrc := src }

end EthereumService

namespace BitcoinService

/-- getUserSeed: identical HMAC construction as in the EthereumService. -/
def getUserSeed (c : Crypto) (serverSecret telegramId : String) : List Nat :=
  c.hmacSHA256 serverSecret telegramId

/-- generateUserMnemonic: bip39.entropyToMnemonic applied to the full user
seed digest. -/
def generateUserMnemonic (c : Crypto) (serverSecret telegramId : String) : String :=
  c.entropyToMnemonic (getUserSeed c serverSecret telegramId)

/-- The path string m/44h/0h/0h/0/(walletIndex) built in
BitcoinService.getUserWallet. -/
def btcPath (walletIndex : Nat) : List PathSeg :=
  [⟨44, true⟩, ⟨0, true⟩, ⟨0, true⟩, ⟨0, false⟩, ⟨walletIndex, false⟩]

/-- BitcoinService.getUserWallet: derive from the seed of the per-user
mnemonic (not from CONFIG.MASTER_MNEMONIC) along btcPath; none models the
throw on a null derived private key. -/
def getUserWallet (c : Crypto) (serverSecret telegramId : String)
    (walletIndex : Nat) : Option WalletModel :=
  let mnemonic := generateUserMnemonic c serverSecret telegramId
  let src := SeedSrc.fromMnemonic mnemonic
  let path := btcPath walletIndex
  match c.derivePriv src path with
  | none => none
  | some pk =>
      some { address := c.btcAddressOf pk
             privateKey := pk
             mnemonic := mnemonic
             path := path
             seedSrc := src }

end BitcoinService

/-- Modelled from the spec: the user segment as the spec sentence words it,
HMAC-SHA256(serverSecret, userId) mod 2^31, reading the whole digest as a
big-endian integer.  Kept separate from EthereumService.userPart, which is
what the code computes, so the two can be compared. -/
def specUserSegment (c : Crypto) (serverSecret userId : String) : Nat :=
  bytesToNat (c.hmacSHA256 serverSecret userId) % 2147483648

/-- Modelled from the spec: the hardened path m/purpose/coinType/seg/0/index
with purpose 44, as the spec sentence words it. -/
def bip44SpecPath (coinType seg walletIndex : Nat) : List PathSeg :=
  [⟨44, true⟩, ⟨coinType, true⟩, ⟨seg, true⟩, ⟨0, false⟩, ⟨walletIndex, false⟩]

/-- Claim C1 as stated: for every userId and wallet index, both services
derive from the single master seed along m/44h/coinTypeh/userSegmenth/0/index
with userSegment the full HMAC digest mod 2^31 and coin type 60 resp. 0. -/
def claimC1 : Prop :=
  ∀ (c : Crypto) (m ss uid : String) (i : Nat),
    (∀ w, EthereumService.getUserWallet c m ss uid i = some w →
        w.seedSrc = SeedSrc.fromMnemonic m ∧
        w.path = bip44SpecPath 60 (specUserSegment c ss uid) i) ∧
    (∀ w, BitcoinService.getUserWallet c ss uid i = some w →
        w.seedSrc = SeedSrc.fromMnemonic m ∧
        w.path = bip44SpecPath 0 (specUserSegment c ss uid) i)

/-- A concrete 32-byte digest whose value as a big-endian integer is 1 while
its first 4 bytes are all zero. -/
def digest0 : List Nat := List.replicate 31 0 ++ [1]

/-- A concrete crypto backend used to evaluate the derivation functions on
explicit inputs: the HMAC always returns digest0 and the remaining
primitives are constant. -/
def crypto0 : Crypto :=
  { hmacSHA256 := fun _ _ => digest0
    entropyToMnemonic := fun _ => "user entropy mnemonic"
    derivePriv := fun _ _ => some [7]
    ethAddressOf := fun _ => "0xEthAddr"
    btcAddressOf := fun _ => "tb1qAddr"
    btcPublicKeyOf := fun _ => "02Pub" }

/-! ### Best-execution router (executeBestDEXSwap) -/

/-- Result record returned by the swap handlers (SwapResult in src/types). -/
structure SwapResult where
  success : Bool
  message : String
deriving DecidableEq

/-- Outcome of a venue getQuote call as consumed by executeBestDEXSwap.  The
buyAmount field carries the parsed numeric value of the quoted buy amount
(the code applies parseFloat to the decimal string); none when absent. -/
structure DexQuote where
  success : Bool
  buyAmount : Option ℚ
  message : Option String
deriving DecidableEq

/-- The two same-chain venues the router knows. -/
inductive Dex where
  | cow
  | uni
deriving DecidableEq

/-- executeBestDEXSwap from swap.callback.ts.  Inputs are the two quote
results and the results the two venue executeSwap calls would return; the
output pairs the list of venues whose executeSwap was actually invoked with
the SwapResult handed back to the caller. -/
def executeBestDEXSwap (cowQuote uniQuote : DexQuote) (execCow execUni : SwapResult) :
    List Dex × SwapResult :=
  if cowQuote.success = true ∧ uniQuote.success = true then
    let cowAmount : ℚ := cowQuote.buyAmount.getD 0
    let uniAmount : ℚ := uniQuote.buyAmount.getD 0
    if uniAmount < cowAmount then
      ([Dex.cow],
        if execCow.success then
          { execCow with
            message := "Swap executed successfully with CoW Protocol (better rate)." }
        else execCow)
    else
      ([Dex.uni],
        if execUni.success then
          { execUni with
            message := "Swap executed successfully with Uniswap (better rate)." }
        else execUni)
  else if cowQuote.success = true then
    ([Dex.cow],
      if execCow.success then
        { execCow with
          message := "Swap executed successfully with CoW Protocol (better rate)." }
      else execCow)
  else if uniQuote.success = true then
    ([Dex.uni],
      if execUni.success then
        { execUni with
          message := "Swap executed successfully with Uniswap (better rate)." }
      else execUni)
  else
    ([], { success := false
           message := "Failed to get quotes from any DEX. Please try again later." })

/-- Claim C6 as stated: when every venue quote fails, the router returns a
failure whose message lists each venue failure reason, and invokes no
executeSwap. -/
def claimC6 : Prop :=
  ∀ (cq uq : DexQuote) (ec eu : SwapResult),
    cq.success = false → uq.success = false →
    (executeBestDEXSwap cq uq ec eu).1 = [] ∧
    (∀ mc, cq.message = some mc →
        mc.data <:+: (executeBestDEXSwap cq uq ec eu).2.message.data) ∧
    (∀ mu, uq.message = some mu →
        mu.data <:+: (executeBestDEXSwap cq uq ec eu).2.message.data)

/-! ### Allowance management -/

/-- The maximum representable uint256, ethers.constants.MaxUint256. -/
def maxUint256 : Nat := 2 ^ 256 - 1

/-- CowSwap VaultRelayer address, the spender of CoW approvals. -/
def VAULT_RELAYER_ADDRESS : String := "0xC92E8bdf79f0507f65a392b0ab4667716BFE0110"

/-- Uniswap V3 SwapRouter address, the spender of Uniswap approvals. -/
def SWAP_ROUTER : String := "0x65669fe35312947050c450bd5d36e6361f85ec12"

/-- One ERC-20 approve transaction as submitted by the services. -/
structure ApproveTx where
  spender : String
  amount : Nat
deriving DecidableEq

/-- Outcome of an allowance check: the approved flag the service returns,
the list of approval transactions it submitted (each one is awaited with
tx.wait before the service returns), and the allowance after the call. -/
structure ApproveOutcome where
  approved : Bool
  txs : List ApproveTx
  allowanceAfter : Nat
deriving DecidableEq

namespace CowSwapService

/-- CowSwapService.checkAndApproveToken on the current on-chain allowance
(the live allowance read) and the required amount, both in raw token units.
The non-throwing runs are modelled; a thrown transaction error returns
approved false in the source and submits nothing further. -/
def checkAndApproveToken (currentAllowance amount : Nat) : ApproveOutcome :=
  if currentAllowance < amount then
    { approved := true
      txs := [{ spender := VAULT_RELAYER_ADDRESS, amount := maxUint256 }]
      allowanceAfter := maxUint256 }
  else
    { approved := true, txs := [], allowanceAfter := currentAllowance }

end CowSwapService

namespace UniswapService

/-- UniswapService.ensureTokenAllowance: native ETH needs no approval and
returns immediately; otherwise the behaviour matches
CowSwapService.checkAndApproveToken with the SwapRouter as spender. -/
def ensureTokenAllowance (isNative : Bool) (currentAllowance amountBN : Nat) :
    ApproveOutcome :=
  if isNative then
    { approved := true, txs := [], allowanceAfter := currentAllowance }
  else if currentAllowance < amountBN then
    { approved := true
      txs := [{ spender := SWAP_ROUTER, amount := maxUint256 }]
      allowanceAfter := maxUint256 }
  else
    { approved := true, txs := [], allowanceAfter := currentAllowance }

end UniswapService

/-! ### Uniswap pool selection -/

/-- On-chain pool state as read by getPoolData: slot0 price, reported
liquidity, current tick. -/
structure PoolData where
  sqrtPriceX96 : Nat
  liquidity : Nat
  tick : Int
deriving DecidableEq

/-- The fee tiers UniswapService.findWorkingPool iterates, in source order. -/
def feeTiers : List Nat := [100, 200, 300, 500, 3000, 10000]

/-- The loop body of findWorkingPool over a list of fee tiers.  A registry
answer of none models a getPool result of AddressZero as well as a tier
whose pool lookup or pool construction threw (the catch continues with the
next tier); the final none models the closing throw. -/
def tryTiers (registry : Nat → Option PoolData) : List Nat → Option (Nat × PoolData)
  | [] => none
  | f :: rest =>
      match registry f with
      | some p => some (f, p)
      | none => tryTiers registry rest

/-- UniswapService.findWorkingPool: try the fee tiers in source order and
return the first pool the registry yields, together with its fee tier. -/
def findWorkingPool (registry : Nat → Option PoolData) : Option (Nat × PoolData) :=
  tryTiers registry feeTiers

/-- Claim C4 as stated: the selection skips tiers with no pool and tiers
whose pool reports zero liquidity, returns the pool of the first tier with
nonzero liquidity, and fails only when no tier yields such a pool. -/
def claimC4 : Prop :=
  ∀ registry : Nat → Option PoolData,
    (∀ f p, findWorkingPool registry = some (f, p) →
        p.liquidity ≠ 0 ∧ registry f = some p ∧ f ∈ feeTiers ∧
        ∀ g q, g ∈ feeTiers → g < f → registry g = some q → q.liquidity = 0) ∧
    (findWorkingPool registry = none ↔
        ∀ f p, f ∈ feeTiers → registry f = some p → p.liquidity = 0)

/-- A concrete registry: the 100 tier has an existing pool with zero
reported liquidity, the 500 tier an existing pool with liquidity 5, all
other tiers no pool. -/
def reg0 : Nat → Option PoolData := fun f =>
  if f = 100 then some { sqrtPriceX96 := 1, liquidity := 0, tick := 0 }
  else if f = 500 then some { sqrtPriceX96 := 1, liquidity := 5, tick := 0 }
  else none

/-! ### Order monitor -/

/-- The CoW order-book order statuses the monitoring switch distinguishes. -/
inductive OrderStatus where
  | OPEN
  | PRESIGNATURE_PENDING
  | FULFILLED
  | CANCELLED
  | EXPIRED
deriving DecidableEq

/-- The fields of an order-book order the monitor reads. -/
structure CowOrder where
  status : OrderStatus
  executedSellAmount : Option String
  executedBuyAmount : Option String
deriving DecidableEq

/-- One iteration of the monitoring loop observes either a fetched order or
a getOrder error, which the source catches, logs and ignores. -/
inductive PollOutcome where
  | ok (o : CowOrder)
  | fetchError
deriving DecidableEq

/-- Status of a monitoring result: either a value of the order status enum
or the out-of-band TIMEOUT marker the source returns as a cast string. -/
inductive MonitorStatus where
  | st (s : OrderStatus)
  | TIMEOUT
deriving DecidableEq

/-- Monitoring result: status plus the executed amounts, which the source
only copies out of a FULFILLED order. -/
structure MonitorResult where
  status : MonitorStatus
  executedSellAmount : Option String
  executedBuyAmount : Option String
deriving DecidableEq

/-- CowSwapService.monitorOrderExecution over the sequence of poll outcomes
the while loop observes before its deadline: the list length is the number
of iterations the time bound admits, so an exhausted list is exactly the
elapsed timeout.  A terminal status returns immediately; OPEN,
PRESIGNATURE_PENDING and fetch errors continue with the next poll. -/
def monitorOrderExecution : List PollOutcome → MonitorResult
  | [] => { status := .TIMEOUT, executedSellAmount := none, executedBuyAmount := none }
  | .fetchError :: rest => monitorOrderExecution rest
  | .ok o :: rest =>
      match o.status with
      | .FULFILLED =>
          { status := .st .FULFILLED
            executedSellAmount := o.executedSellAmount
            executedBuyAmount := o.executedBuyAmount }
      | .CANCELLED =>
          { status := .st .CANCELLED, executedSellAmount := none, executedBuyAmount := none }
      | .EXPIRED =>
          { status := .st .EXPIRED, executedSellAmount := none, executedBuyAmount := none }
      | .OPEN => monitorOrderExecution rest
      | .PRESIGNATURE_PENDING => monitorOrderExecution rest

/-- A poll outcome on which the loop keeps waiting: a fetch error or a
non-terminal order status. -/
def isNonTerminal : PollOutcome → Bool
  | .fetchError => true
  | .ok o => o.status = .OPEN ∨ o.status = .PRESIGNATURE_PENDING

/-- The immediate result the monitor returns when a poll observes the given
order in a terminal status; none for non-terminal statuses. -/
def terminalResult (o : CowOrder) : Option MonitorResult :=
  match o.status with
  | .FULFILLED =>
      some { status := .st .FULFILLED
             executedSellAmount := o.executedSellAmount
             executedBuyAmount := o.executedBuyAmount }
  | .CANCELLED =>
      some { status := .st .CANCELLED, executedSellAmount := none, executedBuyAmount := none }
  | .EXPIRED =>
      some { status := .st .EXPIRED, executedSellAmount := none, executedBuyAmount := none }
  | .OPEN => none
  | .PRESIGNATURE_PENDING => none

/-! ### Configuration loading -/

/-- The environment variables src/config/index.ts reads; none models an
absent variable. -/
structure Env where
  TELEGRAM_BOT_TOKEN : Option String
  MASTER_MNEMONIC : Option String
  SERVER_SECRET : Option String
deriving DecidableEq

/-- The CONFIG record fields the checked claims are about. -/
structure Config where
  TELEGRAM_BOT_TOKEN : String
  MASTER_MNEMONIC : String
  SERVER_SECRET : String
deriving DecidableEq

/-- Module evaluation of src/config/index.ts: build CONFIG with the source
defaults, then throw when the bot token or the master mnemonic is falsy.
JavaScript treats the empty string as falsy, so an absent variable and an
empty one behave alike.  The SERVER_SECRET falls back to the literal
default string and is never checked. -/
def loadConfig (env : Env) : Except String Config :=
  let cfg : Config :=
    { TELEGRAM_BOT_TOKEN := env.TELEGRAM_BOT_TOKEN.getD ""
      MASTER_MNEMONIC := env.MASTER_MNEMONIC.getD ""
      SERVER_SECRET := env.SERVER_SECRET.getD "server_secret" }
  if cfg.TELEGRAM_BOT_TOKEN = "" then Except.error "TELEGRAM_BOT_TOKEN is required"
  else if cfg.MASTER_MNEMONIC = "" then Except.error "MASTER_MNEMONIC is required"
  else Except.ok cfg

/-- Claim C7 as stated, specialised to what the configuration module can
decide: a missing master seed or a missing server secret makes startup
fail.  Startup runs this module before any handler is wired, so a thrown
error here is fatal and precedes every request. -/
def claimC7 : Prop :=
  ∀ env : Env,
    (env.MASTER_MNEMONIC = none ∨ env.SERVER_SECRET = none) →
    ∃ e, loadConfig env = Except.error e

/-! ### Garden coordinator event handlers -/

/-- The Garden order actions the success handler distinguishes. -/
inductive OrderAction where
  | Initiate
  | Redeem
  | Refund
deriving DecidableEq

/-- Rendering of an order action as interpolated into the log line. -/
def actionName : OrderAction → String
  | .Initiate => "Initiate"
  | .Redeem => "Redeem"
  | .Refund => "Refund"

/-- Observable effects of the Garden event handlers.  sendMessage is a call
of the Telegram transport bot.api.sendMessage; sinkEmit stands for an
emission of a (swapId, event) pair to a notification sink, which the checked
claim asserts and which the handlers would have to produce. -/
inductive GardenEffect where
  | logInfo (msg : String)
  | logError (msg : String)
  | sendMessage (chatId : Nat) (text : String)
  | sinkEmit (swapId : String) (event : String)
deriving DecidableEq

/-- The user-facing text the success handler builds per action. -/
def successMessage (action : OrderAction) (orderId txHash : String) : String :=
  match action with
  | .Initiate =>
      s!"🔄 Swap initiated successfully!\n\nOrder ID: `{orderId}`\nTransaction: `{txHash}`\n\nYour funds have been locked in the contract. The bot will automatically complete the swap when conditions are met."
  | .Redeem =>
      s!"✅ Swap completed successfully!\n\nOrder ID: `{orderId}`\nTransaction: `{txHash}`\n\nYour funds have been sent to your destination wallet."
  | .Refund =>
      s!"🔙 Swap refunded!\n\nOrder ID: `{orderId}`\nTransaction: `{txHash}`\n\nYour funds have been returned to your source wallet."

/-- The user-facing text the error handler builds. -/
def errorMessage (orderId err : String) : String :=
  s!"⚠️ Error with your swap (ID: {orderId}):\n{err}"

/-- The garden.on success handler of GardenService.setupEventListeners: log,
look the order up in orderUserMap, and send the action message straight
through bot.api.sendMessage when a user id is mapped.  JavaScript truthiness
of the if means a mapped id of 0 sends nothing. -/
def gardenOnSuccess (orderUserMap : List (String × Nat)) (orderId : String)
    (action : OrderAction) (txHash : String) : List GardenEffect :=
  GardenEffect.logInfo
      s!"Garden success for order ID: {orderId}, Action: {actionName action}, TxHash: {txHash}" ::
    match orderUserMap.lookup orderId with
    | none => []
    | some userId =>
        if userId ≠ 0 then
          let message := successMessage action orderId txHash
          if message ≠ "" then [GardenEffect.sendMessage userId message] else []
        else []

/-- The garden.on error handler of GardenService.setupEventListeners: log,
look the order up, and send the warning straight through
bot.api.sendMessage when a user id is mapped. -/
def gardenOnError (orderUserMap : List (String × Nat)) (orderId err : String) :
    List GardenEffect :=
  GardenEffect.logError s!"Garden error for order ID: {orderId}" ::
    match orderUserMap.lookup orderId with
    | none => []
    | some userId =>
        if userId ≠ 0 then [GardenEffect.sendMessage userId (errorMessage orderId err)]
        else []

/-- Claim C8 as stated: on every state transition the coordinator emits a
(swapId, event) pair to the notification sink and never invokes the
messaging transport itself. -/
def claimC8 : Prop :=
  ∀ (map : List (String × Nat)) (orderId : String) (action : OrderAction)
    (txHash err : String),
    ((∃ ev, GardenEffect.sinkEmit orderId ev ∈ gardenOnSuccess map orderId action txHash) ∧
      ∀ uid text, GardenEffect.sendMessage uid text ∉ gardenOnSuccess map orderId action txHash) ∧
    ((∃ ev, GardenEffect.sinkEmit orderId ev ∈ gardenOnError map orderId err) ∧
      ∀ uid text, GardenEffect.sendMessage uid text ∉ gardenOnError map orderId err)

/-! ### Quote pipelines -/

/-- External observations a getQuote call makes: token lookups, the live
balance check, the live allowance read, and the answer of the venue quoting
backend (none models a thrown backend error). -/
structure QuoteEnv where
  sellTokenFound : Bool
  buyTokenFound : Bool
  balanceSufficient : Bool
  allowance : Nat
  venueQuoteBuyAmount : Option ℚ
deriving DecidableEq

/-- Result of a getQuote call together with the approval transactions the
call submitted (and awaited) on the way. -/
structure QuoteCallResult where
  result : DexQuote
  txs : List ApproveTx
deriving DecidableEq

namespace CowSwapService

/-- CowSwapService.getQuote: token lookups, balance check, then
checkAndApproveToken on the sell token, then the quote request.  The venue
answer is abstracted to its buy amount; approval is modelled on its
non-throwing runs, so the approved flag is true. -/
def getQuote (env : QuoteEnv) (amountInWei : Nat) : QuoteCallResult :=
  if env.sellTokenFound = false then
    ⟨{ success := false, buyAmount := none, message := some "Sell token not found" }, []⟩
  else if env.buyTokenFound = false then
    ⟨{ success := false, buyAmount := none, message := some "Buy token not found" }, []⟩
  else if env.balanceSufficient = false then
    ⟨{ success := false, buyAmount := none, message := some "Insufficient balance" }, []⟩
  else
    let ap := checkAndApproveToken env.allowance amountInWei
    match env.venueQuoteBuyAmount with
    | some b => ⟨{ success := true, buyAmount := some b, message := none }, ap.txs⟩
    | none =>
        ⟨{ success := false, buyAmount := none, message := some "Error getting quote" }, ap.txs⟩

end CowSwapService

namespace UniswapService

/-- UniswapService.getQuote: token lookups, balance check, then
ensureTokenAllowance when the sell side is not native ETH, then pool lookup
through findWorkingPool, then the priced amount.  The route and trade
arithmetic is abstracted to the buy amount carried by the environment; a
missing pool fails the call after the allowance step has already run. -/
def getQuote (env : QuoteEnv) (isNativeInput : Bool)
    (registry : Nat → Option PoolData) (amount : Nat) : QuoteCallResult :=
  if env.sellTokenFound = false then
    ⟨{ success := false, buyAmount := none, message := some "Sell token not found" }, []⟩
  else if env.buyTokenFound = false then
    ⟨{ success := false, buyAmount := none, message := some "Buy token not found" }, []⟩
  else if env.balanceSufficient = false then
    ⟨{ success := false, buyAmount := none, message := some "Insufficient balance" }, []⟩
  else
    let ap := ensureTokenAllowance isNativeInput env.allowance amount
    match findWorkingPool registry with
    | none =>
        ⟨{ success := false, buyAmount := none, message := some "Error getting quote" }, ap.txs⟩
    | some _ =>
        match env.venueQuoteBuyAmount with
        | some b => ⟨{ success := true, buyAmount := some b, message := none }, ap.txs⟩
        | none =>
            ⟨{ success := false, buyAmount := none, message := some "Error getting quote" },
              ap.txs⟩

end UniswapService

/-! ### Theorems -/

/-- C1 counterexample: the claim fails on the code.  At the concrete backend
crypto0 the Bitcoin wallet derivation uses the account segment 0 instead of
the claimed hardened user segment, whose value at digest0 is 1. -/
theorem claimC1_counterexample : ¬ claimC1 := by
  intro h
  have hb :=
    ((h crypto0 "master mnemonic" "secret" "42" 0).2
      { address := "tb1qAddr"
        privateKey := [7]
        mnemonic := "user entropy mnemonic"
        path := BitcoinService.btcPath 0
        seedSrc := SeedSrc.fromMnemonic "user entropy mnemonic" } rfl).2
  exact absurd hb (by decide)

/-- C1 amended: wallet derivation is split per chain family.  The EVM
service derives from the master mnemonic seed along
m/44h/60h/userParth/0/index, where userPart is the first 4 bytes of
HMAC-SHA256(serverSecret, userId) read big-endian, reduced mod 2^31 (not the
whole digest).  The UTXO service does not use the master seed at all: it
derives along m/44h/0h/0h/0/index from the seed of a per-user mnemonic
generated with the whole HMAC digest as entropy, with no user segment in the
path. -/
theorem getUserWallet_amended_derivation (c : Crypto) (m ss uid : String) (i : Nat) :
    (∀ w, EthereumService.getUserWallet c m ss uid i = some w →
        w.seedSrc = SeedSrc.fromMnemonic m ∧
        w.path = bip44SpecPath 60 (EthereumService.userPart c ss uid) i) ∧
    (∀ w, BitcoinService.getUserWallet c ss uid i = some w →
        w.seedSrc = SeedSrc.fromMnemonic (BitcoinService.generateUserMnemonic c ss uid) ∧
        w.path = bip44SpecPath 0 0 i) := by
  constructor
  · intro w hw
    unfold EthereumService.getUserWallet at hw
    cases hd : c.derivePriv (SeedSrc.fromMnemonic m)
        (EthereumService.ethPath (EthereumService.userPart c ss uid) i) with
    | none => simp [hd] at hw
    | some pk =>
        simp only [hd] at hw
        cases hw
        exact ⟨rfl, rfl⟩
  · intro w hw
    unfold BitcoinService.getUserWallet at hw
    cases hd : c.derivePriv
        (SeedSrc.fromMnemonic (BitcoinService.generateUserMnemonic c ss uid))
        (BitcoinService.btcPath i) with
    | none => simp [hd] at hw
    | some pk =>
        simp only [hd] at hw
        cases hw
        exact ⟨rfl, rfl⟩

/-- Witness for the amended C1 theorem at the concrete backend crypto0. -/
theorem getUserWallet_amended_derivation_witness :
    ({ address := "0xEthAddr"
       privateKey := [7]
       mnemonic := "user entropy mnemonic"
       path := EthereumService.ethPath (EthereumService.userPart crypto0 "secret" "42") 0
       seedSrc := SeedSrc.fromMnemonic "master mnemonic" } : WalletModel).path
      = bip44SpecPath 60 (EthereumService.userPart crypto0 "secret" "42") 0 :=
  ((getUserWallet_amended_derivation crypto0 "master mnemonic" "secret" "42" 0).1 _ rfl).2

/-- C9: wallet derivation is deterministic.  Two calls with identical
process secrets (master mnemonic and server secret) return the identical
wallet, in particular the identical address, for both chain families.  The
embedded services are functions of the secrets, the user id and the index
alone, with no hidden state. -/
theorem getUserWallet_deterministic (c : Crypto) (m₁ ss₁ m₂ ss₂ uid : String) (i : Nat)
    (hm : m₁ = m₂) (hss : ss₁ = ss₂) :
    EthereumService.getUserWallet c m₁ ss₁ uid i = EthereumService.getUserWallet c m₂ ss₂ uid i ∧
    BitcoinService.getUserWallet c ss₁ uid i = BitcoinService.getUserWallet c ss₂ uid i ∧
    Option.map WalletModel.address (EthereumService.getUserWallet c m₁ ss₁ uid i)
      = Option.map WalletModel.address (EthereumService.getUserWallet c m₂ ss₂ uid i) ∧
    Option.map WalletModel.address (BitcoinService.getUserWallet c ss₁ uid i)
      = Option.map WalletModel.address (BitcoinService.getUserWallet c ss₂ uid i) := by
  subst hm
  subst hss
  exact ⟨rfl, rfl, rfl, rfl⟩

/-- Witness for the determinism theorem at the concrete backend crypto0. -/
theorem getUserWallet_deterministic_witness :
    Option.map WalletModel.address
        (BitcoinService.getUserWallet crypto0 "secret" "42" 0)
      = Option.map WalletModel.address
        (BitcoinService.getUserWallet crypto0 "secret" "42" 0) :=
  (getUserWallet_deterministic crypto0 "master mnemonic" "secret" "master mnemonic"
    "secret" "42" 0 rfl rfl).2.2.2

/-- C2: whenever both venue quotes succeed, the router invokes executeSwap
on exactly the venue with the greater parsed buy amount, and on Uniswap on
a tie (the fixed deterministic preference); the losing venue is never
executed against. -/
theorem executeBestDEXSwap_picks_higher_quote
    (cq uq : DexQuote) (ec eu : SwapResult) (a b : ℚ)
    (hc : cq.success = true) (hu : uq.success = true)
    (ha : cq.buyAmount = some a) (hb : uq.buyAmount = some b) :
    (b < a → (executeBestDEXSwap cq uq ec eu).1 = [Dex.cow]) ∧
    (a ≤ b → (executeBestDEXSwap cq uq ec eu).1 = [Dex.uni]) := by
  unfold executeBestDEXSwap
  rw [ha, hb]
  constructor
  · intro hlt
    simp [hc, hu, hlt]
  · intro hle
    simp [hc, hu, not_lt.mpr hle]

/-- Witness for the router-selection theorem: with CoW quoting 95 and
Uniswap quoting 102, only Uniswap is executed. -/
theorem executeBestDEXSwap_picks_higher_quote_witness :
    (executeBestDEXSwap { success := true, buyAmount := some 95, message := none }
        { success := true, buyAmount := some 102, message := none }
        { success := true, message := "cow ok" }
        { success := true, message := "uni ok" }).1 = [Dex.uni] :=
  (executeBestDEXSwap_picks_higher_quote
      { success := true, buyAmount := some 95, message := none }
      { success := true, buyAmount := some 102, message := none }
      { success := true, message := "cow ok" }
      { success := true, message := "uni ok" } 95 102 rfl rfl rfl rfl).2
    (by norm_num)

/-- C6 counterexample: when both venue quotes fail with explicit reasons,
the message the router returns is a fixed generic sentence that does not
contain either reason. -/
theorem claimC6_counterexample : ¬ claimC6 := by
  intro h
  have hm :=
    ((h { success := false, buyAmount := none, message := some "CoW quote error: venue down" }
        { success := false, buyAmount := none, message := some "Uniswap quote error: no pool" }
        { success := true, message := "cow ok" }
        { success := true, message := "uni ok" } rfl rfl).2.1
      "CoW quote error: venue down" rfl)
  exact absurd hm (by decide)

/-- C6 amended: when every venue quote fails, the router invokes no
executeSwap and returns a failure carrying the fixed generic message, which
lists no individual venue failure reason. -/
theorem executeBestDEXSwap_all_fail (cq uq : DexQuote) (ec eu : SwapResult)
    (hc : cq.success = false) (hu : uq.success = false) :
    (executeBestDEXSwap cq uq ec eu).1 = [] ∧
    (executeBestDEXSwap cq uq ec eu).2 =
      { success := false
        message := "Failed to get quotes from any DEX. Please try again later." } := by
  unfold executeBestDEXSwap
  simp [hc, hu]

/-- Witness for the all-fail router theorem at concrete failing quotes. -/
theorem executeBestDEXSwap_all_fail_witness :
    (executeBestDEXSwap { success := false, buyAmount := none, message := some "cow down" }
        { success := false, buyAmount := none, message := some "uni down" }
        { success := true, message := "cow ok" }
        { success := true, message := "uni ok" }).1 = [] :=
  (executeBestDEXSwap_all_fail
      { success := false, buyAmount := none, message := some "cow down" }
      { success := false, buyAmount := none, message := some "uni down" }
      { success := true, message := "cow ok" }
      { success := true, message := "uni ok" } rfl rfl).1

/-- C3: allowance policy of both venue services.  With sufficient allowance
the call submits zero transactions and a second consecutive call submits
zero transactions as well; with insufficient allowance exactly one approval
for maxUint256 is submitted (and awaited) before the call returns. -/
theorem ensureAllowance_policy (allowance required : Nat) :
    (required ≤ allowance →
      CowSwapService.checkAndApproveToken allowance required =
          { approved := true, txs := [], allowanceAfter := allowance } ∧
      (CowSwapService.checkAndApproveToken
          (CowSwapService.checkAndApproveToken allowance required).allowanceAfter
          required).txs = [] ∧
      UniswapService.ensureTokenAllowance false allowance required =
          { approved := true, txs := [], allowanceAfter := allowance } ∧
      (UniswapService.ensureTokenAllowance false
          (UniswapService.ensureTokenAllowance false allowance required).allowanceAfter
          required).txs = []) ∧
    (allowance < required →
      CowSwapService.checkAndApproveToken allowance required =
          { approved := true
            txs := [{ spender := VAULT_RELAYER_ADDRESS, amount := maxUint256 }]
            allowanceAfter := maxUint256 } ∧
      UniswapService.ensureTokenAllowance false allowance required =
          { approved := true
            txs := [{ spender := SWAP_ROUTER, amount := maxUint256 }]
            allowanceAfter := maxUint256 }) := by
  constructor
  · intro hle
    have hnot : ¬ allowance < required := not_lt.mpr hle
    refine ⟨?_, ?_, ?_, ?_⟩ <;>
      simp [CowSwapService.checkAndApproveToken, UniswapService.ensureTokenAllowance, hnot]
  · intro hlt
    constructor <;>
      simp [CowSwapService.checkAndApproveToken, UniswapService.ensureTokenAllowance, hlt]

/-- Witness for the allowance policy theorem: allowance 5 covers a required
3 with zero transactions on both consecutive calls, and allowance 1 against
a required 3 submits the single unlimited approval. -/
theorem ensureAllowance_policy_witness :
    (CowSwapService.checkAndApproveToken
        (CowSwapService.checkAndApproveToken 5 3).allowanceAfter 3).txs = [] ∧
    CowSwapService.checkAndApproveToken 1 3 =
      { approved := true
        txs := [{ spender := VAULT_RELAYER_ADDRESS, amount := maxUint256 }]
        allowanceAfter := maxUint256 } :=
  ⟨((ensureAllowance_policy 5 3).1 (by decide)).2.1,
   ((ensureAllowance_policy 1 3).2 (by decide)).1⟩

/-- C4 counterexample: at the registry reg0 the selection returns the pool
of the 100 tier, whose reported liquidity is zero, although the 500 tier
holds a pool with nonzero liquidity. -/
theorem claimC4_counterexample : ¬ claimC4 := by
  intro h
  have hz :=
    ((h reg0).1 100 { sqrtPriceX96 := 1, liquidity := 0, tick := 0 } rfl).1
  exact hz rfl

/-- Characterisation of the tier loop on a sorted tier list: a returned pool
comes from its tier, the tier is in the list, and every earlier tier had no
pool. -/
theorem tryTiers_eq_some (registry : Nat → Option PoolData) :
    ∀ l : List Nat, l.Sorted (· < ·) → ∀ f p, tryTiers registry l = some (f, p) →
      registry f = some p ∧ f ∈ l ∧ ∀ g ∈ l, g < f → registry g = none := by
  intro l
  induction l with
  | nil =>
      intro _ f p hfp
      simp [tryTiers] at hfp
  | cons a t ih =>
      intro hs f p hfp
      rw [List.sorted_cons] at hs
      unfold tryTiers at hfp
      cases ha : registry a with
      | some q =>
          rw [ha] at hfp
          injection hfp with hpair
          obtain ⟨hf, hp⟩ := Prod.mk.inj hpair
          subst hf
          subst hp
          refine ⟨ha, List.mem_cons_self a t, ?_⟩
          intro g hg hlt
          rcases List.mem_cons.mp hg with hga | hgt
          · exact absurd (hga ▸ hlt) (lt_irrefl a)
          · exact absurd hlt (not_lt.mpr (le_of_lt (hs.1 g hgt)))
      | none =>
          rw [ha] at hfp
          obtain ⟨h1, h2, h3⟩ := ih hs.2 f p hfp
          refine ⟨h1, List.mem_cons_of_mem a h2, ?_⟩
          intro g hg hlt
          rcases List.mem_cons.mp hg with hga | hgt
          · exact hga ▸ ha
          · exact h3 g hgt hlt

/-- The tier loop returns none exactly when no tier has a pool. -/
theorem tryTiers_eq_none (registry : Nat → Option PoolData) :
    ∀ l : List Nat, (tryTiers registry l = none ↔ ∀ f ∈ l, registry f = none) := by
  intro l
  induction l with
  | nil => simp [tryTiers]
  | cons a t ih =>
      unfold tryTiers
      cases ha : registry a with
      | some q =>
          simp only [List.mem_cons]
          constructor
          · intro hnone
            exact absurd hnone (by simp)
          · intro hall
            exact absurd (hall a (Or.inl rfl)) (by simp [ha])
      | none =>
          simp only [List.mem_cons]
          constructor
          · intro hnone f hf
            rcases hf with hfa | hft
            · exact hfa ▸ ha
            · exact (ih.mp hnone) f hft
          · intro hall
            exact ih.mpr fun f hf => hall f (Or.inr hf)

/-- C4 amended: the selection iterates the fee tiers ascending and returns
the pool of the first tier whose registry lookup yields a pool, regardless
of its reported liquidity (no liquidity check is performed); it fails
exactly when no tier yields a pool. -/
theorem findWorkingPool_first_existing (registry : Nat → Option PoolData) :
    (∀ f p, findWorkingPool registry = some (f, p) →
        registry f = some p ∧ f ∈ feeTiers ∧ ∀ g ∈ feeTiers, g < f → registry g = none) ∧
    (findWorkingPool registry = none ↔ ∀ f ∈ feeTiers, registry f = none) :=
  ⟨tryTiers_eq_some registry feeTiers (by decide), tryTiers_eq_none registry feeTiers⟩

/-- Witness for the amended pool-selection theorem at the registry reg0:
the zero-liquidity pool of the 100 tier is returned and comes from its
tier. -/
theorem findWorkingPool_first_existing_witness :
    reg0 100 = some { sqrtPriceX96 := 1, liquidity := 0, tick := 0 } ∧ 100 ∈ feeTiers :=
  ⟨((findWorkingPool_first_existing reg0).1 100
      { sqrtPriceX96 := 1, liquidity := 0, tick := 0 } rfl).1,
   ((findWorkingPool_first_existing reg0).1 100
      { sqrtPriceX96 := 1, liquidity := 0, tick := 0 } rfl).2.1⟩

/-- The monitor status is always one of the three terminal order statuses or
TIMEOUT; OPEN and PRESIGNATURE_PENDING are never returned. -/
theorem monitor_status_cases (polls : List PollOutcome) :
    (monitorOrderExecution polls).status = .st .FULFILLED ∨
    (monitorOrderExecution polls).status = .st .CANCELLED ∨
    (monitorOrderExecution polls).status = .st .EXPIRED ∨
    (monitorOrderExecution polls).status = .TIMEOUT := by
  induction polls with
  | nil => simp [monitorOrderExecution]
  | cons p rest ih =>
      cases p with
      | fetchError => simpa [monitorOrderExecution] using ih
      | ok o =>
          cases h : o.status <;> simp [monitorOrderExecution, h] <;> exact ih

/-- A run in which every poll is non-terminal ends in the timeout record. -/
theorem monitor_all_nonterminal (polls : List PollOutcome)
    (h : ∀ p ∈ polls, isNonTerminal p = true) :
    monitorOrderExecution polls =
      { status := .TIMEOUT, executedSellAmount := none, executedBuyAmount := none } := by
  induction polls with
  | nil => rfl
  | cons p rest ih =>
      have hp := h p (List.mem_cons_self p rest)
      have hrest : ∀ q ∈ rest, isNonTerminal q = true :=
        fun q hq => h q (List.mem_cons_of_mem p hq)
      cases p with
      | fetchError => simpa [monitorOrderExecution] using ih hrest
      | ok o =>
          cases ho : o.status <;> simp [isNonTerminal, ho] at hp <;>
            simpa [monitorOrderExecution, ho] using ih hrest

/-- The first terminal poll determines the result: after any non-terminal
prefix, an observed terminal order is returned immediately. -/
theorem monitor_first_terminal (pre : List PollOutcome) (o : CowOrder)
    (rest : List PollOutcome) (hpre : ∀ p ∈ pre, isNonTerminal p = true)
    (r : MonitorResult) (hr : terminalResult o = some r) :
    monitorOrderExecution (pre ++ .ok o :: rest) = r := by
  induction pre with
  | nil =>
      cases ho : o.status <;> simp [terminalResult, ho] at hr <;>
        simp [monitorOrderExecution, ho, ← hr]
  | cons p pre ih =>
      have hp := hpre p (List.mem_cons_self p pre)
      have hpre2 : ∀ q ∈ pre, isNonTerminal q = true :=
        fun q hq => hpre q (List.mem_cons_of_mem p hq)
      cases p with
      | fetchError => simpa [monitorOrderExecution] using ih hpre2
      | ok o2 =>
          cases ho2 : o2.status <;> simp [isNonTerminal, ho2] at hp <;>
            simpa [monitorOrderExecution, ho2] using ih hpre2

/-- C5: the monitor result status is always FULFILLED, CANCELLED, EXPIRED
or TIMEOUT; a poll observing a terminal state after a non-terminal prefix is
returned immediately, with the executed amounts of a FULFILLED order; and a
run whose every poll is non-terminal ends in TIMEOUT when the time bound
exhausts the polls. -/
theorem monitorOrderExecution_spec (polls : List PollOutcome) :
    ((monitorOrderExecution polls).status = .st .FULFILLED ∨
     (monitorOrderExecution polls).status = .st .CANCELLED ∨
     (monitorOrderExecution polls).status = .st .EXPIRED ∨
     (monitorOrderExecution polls).status = .TIMEOUT) ∧
    ((∀ p ∈ polls, isNonTerminal p = true) →
      monitorOrderExecution polls =
        { status := .TIMEOUT, executedSellAmount := none, executedBuyAmount := none }) ∧
    (∀ pre o rest r, polls = pre ++ .ok o :: rest →
      (∀ p ∈ pre, isNonTerminal p = true) → terminalResult o = some r →
      monitorOrderExecution polls = r) :=
  ⟨monitor_status_cases polls,
   monitor_all_nonterminal polls,
   fun pre o rest r hsplit hpre hr =>
     hsplit ▸ monitor_first_terminal pre o rest hpre r hr⟩

/-- Witness for the monitor theorem: two non-terminal polls followed by a
FULFILLED order return FULFILLED with the executed amounts at once. -/
theorem monitorOrderExecution_spec_witness :
    monitorOrderExecution
        [.ok { status := .OPEN, executedSellAmount := none, executedBuyAmount := none },
         .fetchError,
         .ok { status := .FULFILLED, executedSellAmount := some "9", executedBuyAmount := some "8" }]
      = { status := .st .FULFILLED
          executedSellAmount := some "9"
          executedBuyAmount := some "8" } :=
  (monitorOrderExecution_spec
      [.ok { status := .OPEN, executedSellAmount := none, executedBuyAmount := none },
       .fetchError,
       .ok { status := .FULFILLED, executedSellAmount := some "9", executedBuyAmount := some "8" }]).2.2
    [.ok { status := .OPEN, executedSellAmount := none, executedBuyAmount := none }, .fetchError]
    { status := .FULFILLED, executedSellAmount := some "9", executedBuyAmount := some "8" }
    [] _ rfl (by decide) rfl

/-- C7 counterexample: with the bot token and the master mnemonic present
and the server secret absent, configuration loading succeeds, silently
substituting the default secret; startup does not fail. -/
theorem claimC7_counterexample : ¬ claimC7 := by
  intro h
  obtain ⟨e, he⟩ :=
    h { TELEGRAM_BOT_TOKEN := some "token"
        MASTER_MNEMONIC := some "mnemonic"
        SERVER_SECRET := none } (Or.inr rfl)
  have hok :
      loadConfig
        { TELEGRAM_BOT_TOKEN := some "token"
          MASTER_MNEMONIC := some "mnemonic"
          SERVER_SECRET := none }
        = Except.ok
          { TELEGRAM_BOT_TOKEN := "token"
            MASTER_MNEMONIC := "mnemonic"
            SERVER_SECRET := "server_secret" } := rfl
  rw [hok] at he
  exact Except.noConfusion he

/-- C7 amended: configuration loading fails exactly when the bot token or
the master mnemonic is absent or empty; in particular a missing master
mnemonic is fatal at startup, while a missing server secret is silently
replaced by the default string and never causes a failure. -/
theorem loadConfig_amended (env : Env) :
    ((∃ e, loadConfig env = Except.error e) ↔
      env.TELEGRAM_BOT_TOKEN.getD "" = "" ∨ env.MASTER_MNEMONIC.getD "" = "") ∧
    (env.MASTER_MNEMONIC = none → ∃ e, loadConfig env = Except.error e) ∧
    (∀ cfg, loadConfig env = Except.ok cfg →
      cfg.SERVER_SECRET = env.SERVER_SECRET.getD "server_secret" ∧
      cfg.MASTER_MNEMONIC = env.MASTER_MNEMONIC.getD "" ∧
      cfg.TELEGRAM_BOT_TOKEN = env.TELEGRAM_BOT_TOKEN.getD "") := by
  by_cases ht : env.TELEGRAM_BOT_TOKEN.getD "" = "" <;>
    by_cases hm : env.MASTER_MNEMONIC.getD "" = ""
  · refine ⟨by simp [loadConfig, ht],
      fun _ => ⟨"TELEGRAM_BOT_TOKEN is required", by simp [loadConfig, ht]⟩, ?_⟩
    intro cfg hcfg
    simp [loadConfig, ht] at hcfg
  · refine ⟨by simp [loadConfig, ht],
      fun _ => ⟨"TELEGRAM_BOT_TOKEN is required", by simp [loadConfig, ht]⟩, ?_⟩
    intro cfg hcfg
    simp [loadConfig, ht] at hcfg
  · refine ⟨by simp [loadConfig, ht, hm], ?_, ?_⟩
    · intro hnone
      exact ⟨"MASTER_MNEMONIC is required", by simp [loadConfig, ht, hm]⟩
    · intro cfg hcfg
      simp [loadConfig, ht, hm] at hcfg
  · refine ⟨by simp [loadConfig, ht, hm], ?_, ?_⟩
    · intro hnone
      exact absurd (by simp [hnone] : env.MASTER_MNEMONIC.getD "" = "") hm
    · intro cfg hcfg
      simp [loadConfig, ht, hm] at hcfg
      subst hcfg
      exact ⟨rfl, rfl, rfl⟩

/-- Witness for the amended configuration theorem at a concrete
environment missing only the server secret. -/
theorem loadConfig_amended_witness :
    ({ TELEGRAM_BOT_TOKEN := "token"
       MASTER_MNEMONIC := "mnemonic"
       SERVER_SECRET := "server_secret" } : Config).SERVER_SECRET
      = (none : Option String).getD "server_secret" :=
  ((loadConfig_amended
      { TELEGRAM_BOT_TOKEN := some "token"
        MASTER_MNEMONIC := some "mnemonic"
        SERVER_SECRET := none }).2.2 _ rfl).1

/-- The per-action success text is never the empty string, so the inner
truthiness check of the success handler always passes. -/
theorem successMessage_ne_empty (action : OrderAction) (orderId txHash : String) :
    successMessage action orderId txHash ≠ "" := by
  cases action <;>
    · intro h
      have hd := congrArg String.data h
      simp [successMessage, String.data_append] at hd

/-- C8 counterexample: for a mapped order, the success handler invokes the
Telegram transport bot.api.sendMessage directly, contradicting the claim
that the coordinator never invokes a messaging transport. -/
theorem claimC8_counterexample : ¬ claimC8 := by
  intro h
  have hno := ((h [("order1", 7)] "order1" .Redeem "0xhash" "boom").1).2
  refine hno 7 (successMessage .Redeem "order1" "0xhash") ?_
  unfold gardenOnSuccess
  have hl : ([("order1", 7)] : List (String × Nat)).lookup "order1" = some 7 := rfl
  rw [hl]
  simp [successMessage_ne_empty]

/-- C8 amended: the Garden event handlers emit nothing to any notification
sink; instead, whenever the order is mapped to a nonzero user id, they send
the action-specific text directly through the messaging transport, and they
message nobody otherwise. -/
theorem garden_handlers_direct_messaging (map : List (String × Nat)) (orderId : String)
    (action : OrderAction) (txHash err : String) :
    (∀ sid ev, GardenEffect.sinkEmit sid ev ∉ gardenOnSuccess map orderId action txHash) ∧
    (∀ sid ev, GardenEffect.sinkEmit sid ev ∉ gardenOnError map orderId err) ∧
    (∀ uid, map.lookup orderId = some uid → uid ≠ 0 →
      GardenEffect.sendMessage uid (successMessage action orderId txHash)
          ∈ gardenOnSuccess map orderId action txHash ∧
      GardenEffect.sendMessage uid (errorMessage orderId err)
          ∈ gardenOnError map orderId err) ∧
    (map.lookup orderId = none →
      (∀ uid text, GardenEffect.sendMessage uid text ∉ gardenOnSuccess map orderId action txHash) ∧
      (∀ uid text, GardenEffect.sendMessage uid text ∉ gardenOnError map orderId err)) := by
  refine ⟨?_, ?_, ?_, ?_⟩
  · intro sid ev
    unfold gardenOnSuccess
    cases map.lookup orderId with
    | none => simp
    | some uid =>
        by_cases h0 : uid ≠ 0
        · by_cases hmsg : successMessage action orderId txHash ≠ "" <;> simp [h0, hmsg]
        · simp [h0]
  · intro sid ev
    unfold gardenOnError
    cases map.lookup orderId with
    | none => simp
    | some uid => by_cases h0 : uid ≠ 0 <;> simp [h0]
  · intro uid hl h0
    constructor
    · unfold gardenOnSuccess
      rw [hl]
      simp [h0, successMessage_ne_empty]
    · unfold gardenOnError
      rw [hl]
      simp [h0]
  · intro hl
    constructor
    · intro uid text
      unfold gardenOnSuccess
      rw [hl]
      simp
    · intro uid text
      unfold gardenOnError
      rw [hl]
      simp

/-- Witness for the amended Garden theorem at a concrete mapped order. -/
theorem garden_handlers_direct_messaging_witness :
    GardenEffect.sendMessage 7 (successMessage .Redeem "order1" "0xhash")
      ∈ gardenOnSuccess [("order1", 7)] "order1" .Redeem "0xhash" :=
  ((garden_handlers_direct_messaging [("order1", 7)] "order1" .Redeem "0xhash"
      "boom").2.2.1 7 rfl (by decide)).1

/-- C10: quoting is not read-only.  For an ERC-20 sell asset whose live
allowance is below the sell amount, a plain getQuote submits (and awaits)
the unlimited approval transaction and still returns the price, on both
venue services. -/
theorem getQuote_submits_approval (env : QuoteEnv) (registry : Nat → Option PoolData)
    (amount : Nat) (f : Nat) (p : PoolData) (b : ℚ)
    (hsell : env.sellTokenFound = true) (hbuy : env.buyTokenFound = true)
    (hbal : env.balanceSufficient = true) (hallow : env.allowance < amount)
    (hq : env.venueQuoteBuyAmount = some b)
    (hpool : findWorkingPool registry = some (f, p)) :
    (CowSwapService.getQuote env amount).txs =
        [{ spender := VAULT_RELAYER_ADDRESS, amount := maxUint256 }] ∧
    (CowSwapService.getQuote env amount).result.success = true ∧
    (UniswapService.getQuote env false registry amount).txs =
        [{ spender := SWAP_ROUTER, amount := maxUint256 }] ∧
    (UniswapService.getQuote env false registry amount).result.success = true := by
  refine ⟨?_, ?_, ?_, ?_⟩ <;>
    simp [CowSwapService.getQuote, UniswapService.getQuote,
      CowSwapService.checkAndApproveToken, UniswapService.ensureTokenAllowance,
      hsell, hbuy, hbal, hallow, hq, hpool]

/-- Witness for the quote side-effect theorem: allowance 0 against a sell
amount of 3, with the registry reg0, submits the unlimited approval on both
services while the quote succeeds. -/
theorem getQuote_submits_approval_witness :
    (CowSwapService.getQuote
        { sellTokenFound := true, buyTokenFound := true, balanceSufficient := true,
          allowance := 0, venueQuoteBuyAmount := some 7 } 3).txs =
      [{ spender := VAULT_RELAYER_ADDRESS, amount := maxUint256 }] ∧
    (UniswapService.getQuote
        { sellTokenFound := true, buyTokenFound := true, balanceSufficient := true,
          allowance := 0, venueQuoteBuyAmount := some 7 } false reg0 3).txs =
      [{ spender := SWAP_ROUTER, amount := maxUint256 }] := by
  have h := getQuote_submits_approval
    { sellTokenFound := true, buyTokenFound := true, balanceSufficient := true,
      allowance := 0, venueQuoteBuyAmount := some 7 } reg0 3
    100 { sqrtPriceX96 := 1, liquidity := 0, tick := 0 } 7
    rfl rfl rfl (by decide) rfl rfl
  exact ⟨h.1, h.2.2.1⟩
